import Mathlib

/-!
Verification of the ironclad-network-baseline scoring engine
(`src/scoring.py`) and remediation resolver (`src/policy_intent.py`).

The Python code is shallowly embedded:

* An answer set (`Dict[str, str]`) is an association list
  `List (String × String)`; `dict.get` is `List.lookup` (first match wins,
  as dictionary keys are unique).
* Python `int` is `ℤ`; boolean conditions built from `==` / `or` are `Bool`.
* The device multiplier is a Python float drawn from the fixed table
  {1.0, 1.1, 1.25, 1.5} (default 1.1).  It is represented exactly as an
  integer count of hundredths (`100, 110, 125, 150`), and
  `int(round(segmentation_ded * multiplier))` is represented as
  round-half-to-even of `segmentation_ded * hundredths / 100`
  (`pyRoundCent`).  Python's `round` on a float is round-half-to-even of
  the IEEE-754 double; the reachable raw segmentation deductions are
  exactly {0, 10, 20, 25, 35}, and on every reachable product the double
  computation agrees with the exact rational computed here (the only
  inexact multiplier is 1.1, whose double products 10·1.1 and 35·1.1
  round to exactly 11.0 and 38.5, and 20·1.1 to 22.0; 25·1.1 rounds to
  27.500000000000004 which Python rounds to 28, the same value
  round-half-to-even gives for the exact 27.5).
-/

namespace Ironclad

/-- Answer sets: `question_id -> option_key`, modelling `Dict[str, str]`. -/
abbrev Answers : Type := List (String × String)

/-- `answers.get(q)` (returns `None` when the key is absent). -/
def get (a : Answers) (q : String) : Option String :=
  List.lookup q a

/-- Insert/overwrite one answer.  `List.lookup` returns the first match, so
consing shadows any previous binding, matching `answers[q] = v`. -/
def set (a : Answers) (q v : String) : Answers :=
  (q, v) :: a

/-- `scoring.grade_from_score` (src/scoring.py lines 10-19). -/
def grade_from_score (score : ℤ) : String :=
  if score ≥ 85 then "A"
  else if score ≥ 70 then "B"
  else if score ≥ 55 then "C"
  else if score ≥ 40 then "D"
  else "F"

/-- `scoring.DEVICE_MULTIPLIER` (src/scoring.py lines 26-31); the float
multipliers 1.0 / 1.1 / 1.25 / 1.5 are stored exactly as hundredths. -/
def DEVICE_MULTIPLIER : List (String × ℤ) :=
  [("LT_50", 100),
   ("R_50_200", 110),
   ("R_200_500", 125),
   ("R_500_1000", 150)]

/-- `scoring.GATE_CAPS` (src/scoring.py lines 37-43). -/
def GATE_CAPS : List (String × ℤ) :=
  [("G1", 40),
   ("G2", 50),
   ("G3", 55),
   ("G4", 65),
   ("G5", 70)]

/-- `scoring.REQUIRED_SCORED_QIDS` (src/scoring.py lines 48-61). -/
def REQUIRED_SCORED_QIDS : List String :=
  ["C1_WAN_ADMIN_EXPOSURE",
   "C2_REMOTE_ACCESS_METHOD",
   "C3_ADMIN_MFA",
   "D1_GUEST_INTERNAL_ACCESS",
   "D2_VLAN_SEPARATION",
   "D3_IOT_WITH_FINANCE",
   "E1_CORP_WIFI_SECURITY",
   "E2_GUEST_CLIENT_ISOLATION",
   "F1_UNUSED_PORTS_RESTRICTED",
   "F2_CONFIG_BACKUPS",
   "F3_LOGGING_EXISTS",
   "F4_FIRMWARE_UPDATES"]

/-- `scoring.GateResult` dataclass (src/scoring.py lines 64-69). -/
structure GateResult where
  gate_id : String
  failed : Bool
  cap : ℤ
  reasons : List String
deriving DecidableEq, Repr

/-- The `deductions` dictionary of `ScoreBreakdown` (fixed keys,
src/scoring.py lines 299-307). -/
structure Deductions where
  perimeter : ℤ
  segmentation : ℤ
  segmentation_scaled : ℤ
  wireless : ℤ
  hygiene : ℤ
  multiplied_total : ℤ
  total : ℤ
deriving DecidableEq, Repr

/-- `scoring.ScoreBreakdown` dataclass (src/scoring.py lines 72-85).
`device_multiplier` is the float multiplier in hundredths. -/
structure ScoreBreakdown where
  raw_score : ℤ
  cap_applied : ℤ
  final_score : ℤ
  grade : String
  device_multiplier : ℤ
  gates : List GateResult
  deductions : Deductions
  failed_controls : List String
  notes : List String
deriving DecidableEq, Repr

/-- `scoring._is_not_sure` (src/scoring.py lines 88-89). -/
def isNotSure (value : Option String) : Bool :=
  value == some "NOT_SURE" || value.isNone

/-- `scoring._missing_required_scored_answers` (src/scoring.py lines 92-97):
the loop over `REQUIRED_SCORED_QIDS` collecting absent answers is a filter.
(Under the declared type `Dict[str, str]` no stored value is `None`, so
`qid not in answers or answers.get(qid) is None` is exactly absence.) -/
def missing_required_scored_answers (a : Answers) : List String :=
  REQUIRED_SCORED_QIDS.filter (fun qid => (get a qid).isNone)

/-- Text of the aggregated missing-answers note (src/scoring.py line 113). -/
def missingNoteHead : String :=
  "Some scored questions were not answered; missing/unknown responses are treated as failing controls: "

/-- Text of the default-multiplier note (src/scoring.py line 123). -/
def deviceNote : String :=
  "Unknown device bucket; default multiplier applied (1.1x)."

/-- The `notes` list assembled by `score_assessment`
(src/scoring.py lines 104-123): one aggregated note when scored questions
are missing, then one note when the device bucket is unrecognized. -/
def notes_of (missing : List String) (bucket_known : Bool) : List String :=
  (if missing.isEmpty then [] else [missingNoteHead ++ String.intercalate ", " missing])
    ++ (if bucket_known then [] else [deviceNote])

/-- Gate G1 reasons (src/scoring.py lines 130-139). -/
def g1_reasons (c1 c2 : Option String) : List String :=
  (if c1 == some "YES" || isNotSure c1
    then ["Admin interface reachable from internet (or unknown)."] else [])
  ++ (if c2 == some "PORT_FORWARDING"
    then ["Remote access uses port forwarding/exposed services."] else [])

/-- Gate G2 reasons (src/scoring.py lines 142-147). -/
def g2_reasons (d1 : Option String) : List String :=
  if d1 == some "YES" || isNotSure d1
    then ["Guest devices can access internal systems (or unknown)."] else []

/-- Gate G3 reasons (src/scoring.py lines 150-155). -/
def g3_reasons (d2 : Option String) : List String :=
  if d2 == some "FLAT" || isNotSure d2
    then ["Network is flat / not segmented (or unknown)."] else []

/-- Gate G4 reasons (src/scoring.py lines 158-163). -/
def g4_reasons (f2 : Option String) : List String :=
  if f2 == some "NONE" || isNotSure f2
    then ["No configuration backups (or unknown)."] else []

/-- Gate G5 reasons (src/scoring.py lines 166-171). -/
def g5_reasons (f3 : Option String) : List String :=
  if f3 == some "NO" || isNotSure f3
    then ["No network/firewall logging (or unknown)."] else []

/-- The five `GateResult`s, in construction order (src/scoring.py
lines 128-172).  Each `failed` flag is `len(reasons) > 0`; each cap is the
`GATE_CAPS` entry (the keys are present, so the `getD` default is dead). -/
def gatesOf (c1 c2 d1 d2 f2 f3 : Option String) : List GateResult :=
  [⟨"G1", (g1_reasons c1 c2).length != 0, (GATE_CAPS.lookup "G1").getD 0, g1_reasons c1 c2⟩,
   ⟨"G2", (g2_reasons d1).length != 0, (GATE_CAPS.lookup "G2").getD 0, g2_reasons d1⟩,
   ⟨"G3", (g3_reasons d2).length != 0, (GATE_CAPS.lookup "G3").getD 0, g3_reasons d2⟩,
   ⟨"G4", (g4_reasons f2).length != 0, (GATE_CAPS.lookup "G4").getD 0, g4_reasons f2⟩,
   ⟨"G5", (g5_reasons f3).length != 0, (GATE_CAPS.lookup "G5").getD 0, g5_reasons f3⟩]

/-- Cap determination loop (src/scoring.py lines 174-178). -/
def capOf (gates : List GateResult) : ℤ :=
  gates.foldl (fun cap g => if g.failed then min cap g.cap else cap) 100

/-- Perimeter deductions, not multiplied (src/scoring.py lines 185-201). -/
def perimeter_ded (c1 c2 c3 : Option String) : ℤ :=
  (if c1 == some "YES" || isNotSure c1 then 25 else 0)
  + (if c2 == some "PORT_FORWARDING" then 25 else 0)
  + (if c3 == some "NO" || isNotSure c3 then 10 else 0)

/-- Segmentation deductions, multiplied (src/scoring.py lines 203-224). -/
def segmentation_ded (d2 d3 : Option String) : ℤ :=
  (if d2 == some "FLAT" || isNotSure d2 then 25
   else if d2 == some "PARTIAL" then 10 else 0)
  + (if d3 == some "YES" then 10 else 0)

/-- Wireless deductions, not multiplied (src/scoring.py lines 226-240). -/
def wireless_ded (e1 e2 : Option String) : ℤ :=
  (if e1 == some "OPEN_OR_UNKNOWN" || isNotSure e1 then 15
   else if e1 == some "PSK" then 7 else 0)
  + (if e2 == some "NO" || isNotSure e2 then 8 else 0)

/-- Hygiene & ops deductions, not multiplied (src/scoring.py lines 242-264). -/
def hygiene_ded (f1 f2 f3 f4 : Option String) : ℤ :=
  (if f1 == some "NO" || isNotSure f1 then 7 else 0)
  + (if f2 == some "NONE" || isNotSure f2 then 15 else 0)
  + (if f3 == some "NO" || isNotSure f3 then 15 else 0)
  + (if f4 == some "RARE" || isNotSure f4 then 7 else 0)

/-- The raw `failed_controls` accumulation, in source append order
(src/scoring.py lines 185-264). -/
def failed_controls_raw (c1 c2 c3 d1 d2 d3 e1 e2 f1 f2 f3 f4 : Option String) :
    List String :=
  (if c1 == some "YES" || isNotSure c1 then ["CTRL_PERIMETER_WAN_ADMIN_EXPOSURE"] else [])
  ++ (if c2 == some "PORT_FORWARDING" then ["CTRL_PERIMETER_PORT_FORWARDING"] else [])
  ++ (if c3 == some "NO" || isNotSure c3 then ["CTRL_IDENTITY_ADMIN_MFA"] else [])
  ++ (if d2 == some "FLAT" || isNotSure d2 then ["CTRL_SEGMENTATION_FLAT_NETWORK"]
      else if d2 == some "PARTIAL" then ["CTRL_SEGMENTATION_PARTIAL"] else [])
  ++ (if d1 == some "YES" || isNotSure d1 then ["CTRL_SEGMENTATION_GUEST_NOT_ISOLATED"] else [])
  ++ (if d3 == some "YES" then ["CTRL_SEGMENTATION_IOT_WITH_CRITICAL"] else [])
  ++ (if e1 == some "OPEN_OR_UNKNOWN" || isNotSure e1 then ["CTRL_WIRELESS_OPEN_OR_UNKNOWN"]
      else if e1 == some "PSK" then ["CTRL_WIRELESS_PSK_ONLY"] else [])
  ++ (if e2 == some "NO" || isNotSure e2 then ["CTRL_WIRELESS_GUEST_CLIENT_ISOLATION"] else [])
  ++ (if f1 == some "NO" || isNotSure f1 then ["CTRL_HYGIENE_UNUSED_PORTS"] else [])
  ++ (if f2 == some "NONE" || isNotSure f2 then ["CTRL_OPERATIONS_NO_BACKUPS"] else [])
  ++ (if f3 == some "NO" || isNotSure f3 then ["CTRL_OPERATIONS_NO_LOGGING"] else [])
  ++ (if f4 == some "RARE" || isNotSure f4 then ["CTRL_OPERATIONS_FIRMWARE_RARE"] else [])

/-- Order-preserving deduplication with a seen-set
(src/scoring.py lines 284-290). -/
def dedup_go (seen : List String) : List String → List String
  | [] => []
  | c :: rest =>
    if seen.contains c then dedup_go seen rest
    else c :: dedup_go (c :: seen) rest

/-- `int(round(n / 100))` for `n : ℤ`: round-half-to-even, which is what
Python's `round` performs on the (here exactly represented) float
`segmentation_ded * multiplier`.  See the header comment for why this
coincides with the IEEE-754 double computation on every reachable input. -/
def pyRoundCent (n : ℤ) : ℤ :=
  let f := n.fdiv 100
  let r := n - f * 100
  if 2 * r < 100 then f
  else if 100 < 2 * r then f + 1
  else if f % 2 = 0 then f else f + 1

/-- `scoring.score_assessment` (src/scoring.py lines 100-310). -/
def score_assessment (answers : Answers) : ScoreBreakdown :=
  let missing := missing_required_scored_answers answers
  let device_bucket := (get answers "A1_DEVICE_COUNT").getD "R_50_200"
  let multiplier := (DEVICE_MULTIPLIER.lookup device_bucket).getD 110
  let notes := notes_of missing (DEVICE_MULTIPLIER.lookup device_bucket).isSome
  let c1 := get answers "C1_WAN_ADMIN_EXPOSURE"
  let c2 := get answers "C2_REMOTE_ACCESS_METHOD"
  let c3 := get answers "C3_ADMIN_MFA"
  let d1 := get answers "D1_GUEST_INTERNAL_ACCESS"
  let d2 := get answers "D2_VLAN_SEPARATION"
  let d3 := get answers "D3_IOT_WITH_FINANCE"
  let e1 := get answers "E1_CORP_WIFI_SECURITY"
  let e2 := get answers "E2_GUEST_CLIENT_ISOLATION"
  let f1 := get answers "F1_UNUSED_PORTS_RESTRICTED"
  let f2 := get answers "F2_CONFIG_BACKUPS"
  let f3 := get answers "F3_LOGGING_EXISTS"
  let f4 := get answers "F4_FIRMWARE_UPDATES"
  let gates := gatesOf c1 c2 d1 d2 f2 f3
  let cap := capOf gates
  let per := perimeter_ded c1 c2 c3
  let seg := segmentation_ded d2 d3
  let wifi := wireless_ded e1 e2
  let hyg := hygiene_ded f1 f2 f3 f4
  let seg_scaled := pyRoundCent (seg * multiplier)
  let mult_total := seg_scaled + wifi + hyg
  let total := per + mult_total
  let raw0 : ℤ := 100 - total
  let raw1 := if raw0 < 0 then 0 else raw0
  let raw := if raw1 > 100 then 100 else raw1
  let final := min raw cap
  ⟨raw, cap, final, grade_from_score final, multiplier, gates,
   ⟨per, seg, seg_scaled, wifi, hyg, mult_total, total⟩,
   dedup_go [] (failed_controls_raw c1 c2 c3 d1 d2 d3 e1 e2 f1 f2 f3 f4),
   notes⟩

/-! ### Remediation resolver (`src/policy_intent.py`) -/

/-- `policy_intent.FixBlock` dataclass (src/policy_intent.py lines 10-19). -/
structure FixBlock where
  severity : String
  gate : Option String
  control_id : String
  title : String
  finding : String
  policy_intent : String
  technical_rationale : String
  references : List String
deriving DecidableEq, Repr

/-- Reference tag (src/policy_intent.py line 26). -/
def REF_CIS_IG1 : String := "CIS Controls (IG1)"

/-- Reference tag (src/policy_intent.py line 27). -/
def REF_NIST_SMB : String := "NIST SMB Baseline"

/-- Reference tag (src/policy_intent.py line 28). -/
def REF_VENDOR : String := "Vendor Best Practice"

/-- `policy_intent.CONTROL_FIX_LIBRARY` (src/policy_intent.py lines 34-252). -/
def CONTROL_FIX_LIBRARY : List (String × FixBlock) :=
  [("CTRL_PERIMETER_WAN_ADMIN_EXPOSURE",
    ⟨"critical", some "G1", "CTRL_PERIMETER_WAN_ADMIN_EXPOSURE",
     "Restrict public access to management interfaces",
     "Administrative login interfaces for network equipment are reachable from the public internet (or this is unknown).",
     "Administrative access to network infrastructure should be reachable only from trusted internal networks or through a secure VPN. Public (WAN) management access should be disabled.",
     "Publicly exposed management interfaces significantly increase the likelihood of unauthorized access through credential attacks or software vulnerabilities.",
     [REF_CIS_IG1, REF_NIST_SMB, REF_VENDOR]⟩),
   ("CTRL_PERIMETER_PORT_FORWARDING",
    ⟨"critical", some "G1", "CTRL_PERIMETER_PORT_FORWARDING",
     "Remove direct internet exposure of internal services",
     "Remote access to internal systems is provided via port forwarding / exposed services.",
     "Remove direct internet exposure of internal services. Provide remote access using a client-to-site VPN with strong authentication. Prefer cloud/SaaS access where possible.",
     "Direct exposure of internal services removes a key security boundary and is a common entry point for compromise in SMB environments.",
     [REF_CIS_IG1, REF_NIST_SMB, REF_VENDOR]⟩),
   ("CTRL_IDENTITY_ADMIN_MFA",
    ⟨"high", some "G1", "CTRL_IDENTITY_ADMIN_MFA",
     "Enforce MFA for administrative access",
     "Multi-factor authentication (MFA) is not enforced for network administrative access (or this is unknown).",
     "Require MFA for all administrative access to firewalls, switches, Wi-Fi controllers, and management portals. Use app-based TOTP or hardware-backed methods where supported.",
     "MFA reduces the impact of password compromise and significantly improves the security of privileged access.",
     [REF_CIS_IG1, REF_NIST_SMB, REF_VENDOR]⟩),
   ("CTRL_SEGMENTATION_GUEST_NOT_ISOLATED",
    ⟨"critical", some "G2", "CTRL_SEGMENTATION_GUEST_NOT_ISOLATED",
     "Isolate guest access from internal systems",
     "Guest/untrusted devices can access internal systems (or this is unknown).",
     "Place guest access on a dedicated network segment and enforce default-deny rules from guest to internal networks. Allow only necessary services (e.g., DHCP/DNS) and internet-bound traffic.",
     "Guest devices should be treated as untrusted. Isolation reduces risk and limits visibility of internal assets.",
     [REF_CIS_IG1, REF_NIST_SMB, REF_VENDOR]⟩),
   ("CTRL_SEGMENTATION_FLAT_NETWORK",
    ⟨"critical", some "G3", "CTRL_SEGMENTATION_FLAT_NETWORK",
     "Implement basic network segmentation",
     "The network is flat (no meaningful segmentation), or segmentation status is unknown.",
     "Implement at least basic segmentation suitable for SMBs (e.g., Staff, Guest, IoT, and optionally Management). Enforce inter-segment access rules via firewall/L3 controls using least privilege.",
     "Segmentation limits lateral movement and reduces blast radius when endpoints are compromised.",
     [REF_CIS_IG1, REF_NIST_SMB, REF_VENDOR]⟩),
   ("CTRL_SEGMENTATION_PARTIAL",
    ⟨"high", some "G3", "CTRL_SEGMENTATION_PARTIAL",
     "Strengthen segmentation boundaries",
     "Segmentation exists but is partial (not all groups are separated).",
     "Complete separation for at least Staff, Guest, and IoT. Ensure inter-segment policies are explicit and follow least privilege.",
     "Partial segmentation can still allow unnecessary lateral movement. Clear boundaries reduce risk and simplify policy control.",
     [REF_CIS_IG1, REF_NIST_SMB, REF_VENDOR]⟩),
   ("CTRL_SEGMENTATION_IOT_WITH_CRITICAL",
    ⟨"high", none, "CTRL_SEGMENTATION_IOT_WITH_CRITICAL",
     "Contain IoT/unmanaged devices",
     "IoT/unmanaged devices share the same network as business-critical systems.",
     "Move IoT/unmanaged devices to a restricted segment and allow only explicitly required communication to necessary internal services.",
     "IoT devices often have weaker security controls and may not be patched regularly; containment reduces exposure to critical systems.",
     [REF_CIS_IG1, REF_NIST_SMB, REF_VENDOR]⟩),
   ("CTRL_WIRELESS_OPEN_OR_UNKNOWN",
    ⟨"high", none, "CTRL_WIRELESS_OPEN_OR_UNKNOWN",
     "Use modern Wi-Fi security",
     "Corporate Wi-Fi security is open/unknown.",
     "Use WPA2/WPA3 with a strong configuration. For business devices, consider WPA2/WPA3-Enterprise (802.1X) where feasible. Ensure guest access is separate from corporate access.",
     "Open or unknown Wi-Fi security materially increases the risk of unauthorized network access.",
     [REF_CIS_IG1, REF_NIST_SMB, REF_VENDOR]⟩),
   ("CTRL_WIRELESS_PSK_ONLY",
    ⟨"medium", none, "CTRL_WIRELESS_PSK_ONLY",
     "Harden Wi-Fi authentication and separation",
     "Corporate Wi-Fi uses a shared password (PSK).",
     "Maintain strong PSK hygiene (rotation, unique per-site) and ensure separation between corporate and guest access. Where feasible, adopt 802.1X (Enterprise) for managed corporate devices.",
     "Shared passwords are harder to manage and revoke. Strong separation and tighter identity controls reduce risk.",
     [REF_CIS_IG1, REF_NIST_SMB, REF_VENDOR]⟩),
   ("CTRL_WIRELESS_GUEST_CLIENT_ISOLATION",
    ⟨"medium", none, "CTRL_WIRELESS_GUEST_CLIENT_ISOLATION",
     "Enable guest client isolation",
     "Guest Wi-Fi client isolation is disabled or unknown.",
     "Enable guest client isolation to prevent guest devices from communicating directly with each other. Combine this with network-level guest isolation from internal systems.",
     "Client isolation reduces opportunistic peer-to-peer attacks and limits lateral spread on guest networks.",
     [REF_CIS_IG1, REF_NIST_SMB, REF_VENDOR]⟩),
   ("CTRL_HYGIENE_UNUSED_PORTS",
    ⟨"medium", none, "CTRL_HYGIENE_UNUSED_PORTS",
     "Restrict unused network ports",
     "Unused switch ports or wall jacks are not disabled/restricted (or this is unknown).",
     "Disable unused switch ports or restrict them to a safe, non-production configuration. Document and review active ports periodically.",
     "Open unused ports increase risk of unauthorized physical access and rogue devices joining the network.",
     [REF_CIS_IG1, REF_NIST_SMB, REF_VENDOR]⟩),
   ("CTRL_OPERATIONS_NO_BACKUPS",
    ⟨"high", some "G4", "CTRL_OPERATIONS_NO_BACKUPS",
     "Establish configuration backups",
     "No recent configuration backups are available (or this is unknown).",
     "Maintain backups of firewall/router/switch/Wi-Fi configurations. Store backups securely off-device and test restore procedures periodically.",
     "Backups reduce downtime and enable fast recovery after device failure or misconfiguration.",
     [REF_CIS_IG1, REF_NIST_SMB, REF_VENDOR]⟩),
   ("CTRL_OPERATIONS_NO_LOGGING",
    ⟨"high", some "G5", "CTRL_OPERATIONS_NO_LOGGING",
     "Enable basic logging and retention",
     "Network/firewall logs are not stored anywhere (or this is unknown).",
     "Enable firewall/network logging and store logs locally or centrally with reasonable retention. Ensure logs cover authentication events, configuration changes, and security-relevant traffic.",
     "Without logs, troubleshooting and incident response are severely limited, and security events may go undetected.",
     [REF_CIS_IG1, REF_NIST_SMB, REF_VENDOR]⟩),
   ("CTRL_OPERATIONS_FIRMWARE_RARE",
    ⟨"medium", none, "CTRL_OPERATIONS_FIRMWARE_RARE",
     "Adopt a regular update cadence",
     "Network device firmware/software is rarely updated (or update cadence is unknown).",
     "Adopt a regular update process appropriate for SMBs (e.g., quarterly review with urgent security updates applied sooner). Track versions and changes.",
     "Regular updates reduce exposure to known vulnerabilities and improve stability over time.",
     [REF_CIS_IG1, REF_NIST_SMB, REF_VENDOR]⟩)]

/-- One gate executive summary record emitted by the resolver
(src/policy_intent.py lines 304-311). -/
structure GateSummary where
  gate_id : String
  title : String
  summary : String
  cap : ℤ
  reasons : List String
deriving DecidableEq, Repr

/-- `policy_intent.GATE_EXEC_SUMMARIES` (src/policy_intent.py lines 259-280),
as `gate_id -> (title, summary)`. -/
def GATE_EXEC_SUMMARIES : List (String × String × String) :=
  [("G1", "Perimeter Exposure",
    "Public exposure of administrative interfaces or internal services materially increases compromise risk."),
   ("G2", "Guest Isolation",
    "Guest or untrusted devices should not have access to internal systems."),
   ("G3", "Segmentation",
    "Basic segmentation is required to limit lateral movement and reduce blast radius."),
   ("G4", "Configuration Backups",
    "Backups are necessary for recovery and operational resilience."),
   ("G5", "Logging & Visibility",
    "Logging is necessary for troubleshooting and incident detection.")]

/-- Gate summary loop (src/policy_intent.py lines 298-311): skip records with
a falsy `gate_id`, emit one summary per failed gate, in input order, with
the `{"title": gid, "summary": ""}` fallback for unrecognized identifiers. -/
def gate_summaries_of : List GateResult → List GateSummary
  | [] => []
  | g :: rest =>
    if g.gate_id == "" then gate_summaries_of rest
    else
      let meta := (GATE_EXEC_SUMMARIES.lookup g.gate_id).getD (g.gate_id, "")
      if g.failed then
        ⟨g.gate_id, meta.1, meta.2, g.cap, g.reasons⟩ :: gate_summaries_of rest
      else gate_summaries_of rest

/-- Block collection loop (src/policy_intent.py lines 313-322): dedup by
control id with a seen-set (first occurrence wins), drop ids without a
library entry.  A dataclass instance is truthy, so `if b:` is a `None` test. -/
def collect_blocks (seen : List String) : List String → List FixBlock
  | [] => []
  | cid :: rest =>
    if seen.contains cid then collect_blocks seen rest
    else
      match CONTROL_FIX_LIBRARY.lookup cid with
      | some b => b :: collect_blocks (cid :: seen) rest
      | none => collect_blocks (cid :: seen) rest

/-- `{"critical": 0, "high": 1, "medium": 2}.get(severity, 3)`
(src/policy_intent.py line 327). -/
def severity_rank (s : String) : ℕ :=
  ((([("critical", 0), ("high", 1), ("medium", 2)] : List (String × ℕ)).lookup s).getD 3)

/-- `0 if b.gate in ("G1",...,"G5") else 1` (src/policy_intent.py line 326). -/
def gate_rank (g : Option String) : ℕ :=
  if g == some "G1" || g == some "G2" || g == some "G3" || g == some "G4" || g == some "G5"
    then 0 else 1

/-- `policy_intent.sort_key` (src/policy_intent.py lines 325-328). -/
def sort_key (b : FixBlock) : ℕ × ℕ × String :=
  (severity_rank b.severity, gate_rank b.gate, b.control_id)

/-- Lexicographic comparison of character lists by code point: Python's
string comparison, used as the final component of the sort key. -/
def charListLE : List Char → List Char → Bool
  | [], _ => true
  | _ :: _, [] => false
  | a :: as, b :: bs =>
    a.toNat < b.toNat || (a.toNat == b.toNat && charListLE as bs)

/-- Python `<=` on strings (lexicographic by code point). -/
def strLE (a b : String) : Bool :=
  charListLE a.data b.data

/-- Python tuple `<=` on the sort keys (lexicographic). -/
def keyLE (x y : ℕ × ℕ × String) : Bool :=
  x.1 < y.1 || (x.1 == y.1 &&
    (x.2.1 < y.2.1 || (x.2.1 == y.2.1 && strLE x.2.2 y.2.2)))

/-- The total preorder `sorted(..., key=sort_key)` sorts by. -/
def block_le (a b : FixBlock) : Bool :=
  keyLE (sort_key a) (sort_key b)

/-- `blocks_sorted` (src/policy_intent.py line 330): Python `sorted` is a
stable merge sort by the key. -/
def blocks_sorted_of (failed_controls : List String) : List FixBlock :=
  (collect_blocks [] failed_controls).mergeSort block_le

/-- Severity partition test (src/policy_intent.py line 337). -/
def isCritHigh (b : FixBlock) : Bool :=
  b.severity == "critical" || b.severity == "high"

/-- The resolver's output record (src/policy_intent.py lines 342-346).
Each emitted fix is `asdict` of a `FixBlock`, i.e. a plain projection of
its fields, so it is kept as a `FixBlock` here. -/
structure RemediationOutput where
  gate_summaries : List GateSummary
  critical_fixes : List FixBlock
  recommended_fixes : List FixBlock
deriving DecidableEq, Repr

/-- `policy_intent.generate_fix_blocks` (src/policy_intent.py lines 283-346).
The partition loop over `blocks_sorted` appends each block to exactly one
bucket in order, which is the pair of filters below. -/
def generate_fix_blocks (failed_controls : List String) (gates : List GateResult) :
    RemediationOutput :=
  ⟨gate_summaries_of gates,
   (blocks_sorted_of failed_controls).filter isCritHigh,
   (blocks_sorted_of failed_controls).filter (fun b => !isCritHigh b)⟩

/-! ### Spec-side definitions (stated from the specification's words, for
refinement comparison with the code-side definitions above) -/

/-- Modelled from the spec: "cap_applied equals the minimum cap among the
gates whose failed flag is true, or 100 when no gate failed". -/
def min_failed_cap (gates : List GateResult) : ℤ :=
  (((gates.filter (fun g => g.failed)).map (fun g => g.cap)).min?).getD 100

/-- Two engine outputs agree on the three observables claim C1 compares:
the deduction breakdown, the gate results, and the failed-control list. -/
def sameOutcome (x y : ScoreBreakdown) : Prop :=
  x.deductions = y.deductions ∧ x.gates = y.gates ∧ x.failed_controls = y.failed_controls

/-! ### Helper lemmas -/

/-- A gate's `failed` flag is the emptiness test on its reasons. -/
theorem length_bne_iff (rs : List String) : ((rs.length != 0) = true) ↔ rs ≠ [] := by
  cases rs <;> simp

/-- The cap fold on the five gates is bounded and equals the spec-side
minimum over failed gates. -/
theorem capOf_gatesOf (c1 c2 d1 d2 f2 f3 : Option String) :
    0 ≤ capOf (gatesOf c1 c2 d1 d2 f2 f3) ∧
    capOf (gatesOf c1 c2 d1 d2 f2 f3) ≤ 100 ∧
    capOf (gatesOf c1 c2 d1 d2 f2 f3) = min_failed_cap (gatesOf c1 c2 d1 d2 f2 f3) := by
  simp only [gatesOf]
  generalize g1_reasons c1 c2 = r1
  generalize g2_reasons d1 = r2
  generalize g3_reasons d2 = r3
  generalize g4_reasons f2 = r4
  generalize g5_reasons f3 = r5
  cases h1 : r1.length != 0 <;> cases h2 : r2.length != 0 <;>
    cases h3 : r3.length != 0 <;> cases h4 : r4.length != 0 <;>
    cases h5 : r5.length != 0 <;>
    exact ⟨of_decide_eq_true rfl, of_decide_eq_true rfl, rfl⟩

/-! ### Claims -/

/-- Scenario A of the spec: the all-failing baseline answer set. -/
def scenarioA : Answers :=
  [("C1_WAN_ADMIN_EXPOSURE", "YES"),
   ("C2_REMOTE_ACCESS_METHOD", "PORT_FORWARDING"),
   ("C3_ADMIN_MFA", "NO"),
   ("D1_GUEST_INTERNAL_ACCESS", "YES"),
   ("D2_VLAN_SEPARATION", "FLAT"),
   ("D3_IOT_WITH_FINANCE", "YES"),
   ("E1_CORP_WIFI_SECURITY", "OPEN_OR_UNKNOWN"),
   ("E2_GUEST_CLIENT_ISOLATION", "NO"),
   ("F1_UNUSED_PORTS_RESTRICTED", "NO"),
   ("F2_CONFIG_BACKUPS", "NONE"),
   ("F3_LOGGING_EXISTS", "NO"),
   ("F4_FIRMWARE_UPDATES", "RARE"),
   ("A1_DEVICE_COUNT", "R_200_500")]

/-- C2, counterexample: on the all-failing scenario-A answer set the engine
emits 12 distinct failed-control identifiers, not 13 as the claim states
(the rule table can only co-trigger 12 of the 14 controls: `PARTIAL`
is shadowed by `FLAT` and `PSK_ONLY` by `OPEN_OR_UNKNOWN`). -/
theorem claim_C2_counterexample :
    (score_assessment scenarioA).failed_controls.length ≠ 13 := by decide

/-- C2, amended: scenario A yields perimeter 60, segmentation raw 35,
multiplier 1.25 (125 hundredths), segmentation_scaled 44, wireless 23,
hygiene 44, multiplied_total 111, total 171, raw_score 0, cap_applied 40,
final_score 0, grade "F", all 5 gates failed, and exactly 12 (not 13)
distinct failed-control identifiers including the guest-isolation
non-deduction one. -/
theorem claim_C2_amended :
    (score_assessment scenarioA).deductions = ⟨60, 35, 44, 23, 44, 111, 171⟩ ∧
    (score_assessment scenarioA).device_multiplier = 125 ∧
    (score_assessment scenarioA).raw_score = 0 ∧
    (score_assessment scenarioA).cap_applied = 40 ∧
    (score_assessment scenarioA).final_score = 0 ∧
    (score_assessment scenarioA).grade = "F" ∧
    (score_assessment scenarioA).gates.map GateResult.failed =
      [true, true, true, true, true] ∧
    (score_assessment scenarioA).failed_controls =
      ["CTRL_PERIMETER_WAN_ADMIN_EXPOSURE",
       "CTRL_PERIMETER_PORT_FORWARDING",
       "CTRL_IDENTITY_ADMIN_MFA",
       "CTRL_SEGMENTATION_FLAT_NETWORK",
       "CTRL_SEGMENTATION_GUEST_NOT_ISOLATED",
       "CTRL_SEGMENTATION_IOT_WITH_CRITICAL",
       "CTRL_WIRELESS_OPEN_OR_UNKNOWN",
       "CTRL_WIRELESS_GUEST_CLIENT_ISOLATION",
       "CTRL_HYGIENE_UNUSED_PORTS",
       "CTRL_OPERATIONS_NO_BACKUPS",
       "CTRL_OPERATIONS_NO_LOGGING",
       "CTRL_OPERATIONS_FIRMWARE_RARE"] ∧
    (score_assessment scenarioA).failed_controls.length = 12 ∧
    (score_assessment scenarioA).failed_controls.Nodup ∧
    "CTRL_SEGMENTATION_GUEST_NOT_ISOLATED" ∈ (score_assessment scenarioA).failed_controls := by
  refine ⟨?_, ?_, ?_, ?_, ?_, ?_, ?_, ?_, ?_, ?_, ?_⟩ <;> decide

/-- C4: for every answer set, `final_score ≤ cap_applied ≤ 100`, and
`cap_applied` is the minimum cap over the failed gates (100 when none
failed). -/
theorem claim_C4 (a : Answers) :
    (score_assessment a).final_score ≤ (score_assessment a).cap_applied ∧
    (score_assessment a).cap_applied ≤ 100 ∧
    (score_assessment a).cap_applied = min_failed_cap (score_assessment a).gates := by
  simp only [score_assessment]
  exact ⟨min_le_right _ _, (capOf_gatesOf _ _ _ _ _ _).2.1, (capOf_gatesOf _ _ _ _ _ _).2.2⟩

/-- C5: for every answer set, `0 ≤ raw_score ≤ 100` and
`0 ≤ final_score ≤ 100`. -/
theorem claim_C5 (a : Answers) :
    0 ≤ (score_assessment a).raw_score ∧ (score_assessment a).raw_score ≤ 100 ∧
    0 ≤ (score_assessment a).final_score ∧ (score_assessment a).final_score ≤ 100 := by
  simp only [score_assessment]
  rcases capOf_gatesOf (get a "C1_WAN_ADMIN_EXPOSURE") (get a "C2_REMOTE_ACCESS_METHOD")
      (get a "D1_GUEST_INTERNAL_ACCESS") (get a "D2_VLAN_SEPARATION")
      (get a "F2_CONFIG_BACKUPS") (get a "F3_LOGGING_EXISTS") with ⟨h0, h100, -⟩
  split_ifs <;> omega

/-- The conservative-unknown equivalence for one question: answering the
worst-case option, answering the `NOT_SURE` sentinel, and leaving the
question absent all produce the same deductions, gates and failed
controls. -/
def unknownEquiv (q w : String) : Prop :=
  (∀ a : Answers,
    sameOutcome (score_assessment (set a q w)) (score_assessment (set a q "NOT_SURE"))) ∧
  (∀ a : Answers, get a q = none →
    sameOutcome (score_assessment (set a q w)) (score_assessment a))

/-- `NOT_SURE` and absence agree with each other (used for the two
questions whose triggering option is NOT applied on unknown). -/
def nsAbsentEquiv (q : String) : Prop :=
  ∀ a : Answers, get a q = none →
    sameOutcome (score_assessment (set a q "NOT_SURE")) (score_assessment a)

/-- C1, counterexample: for Q = `D3_IOT_WITH_FINANCE` (worst option `YES`)
the engine deducts 10 segmentation points and emits
`CTRL_SEGMENTATION_IOT_WITH_CRITICAL` on `YES` but not on `NOT_SURE`
(src/scoring.py lines 221-224 test only `d3 == "YES"`), so the claimed
equivalence fails. -/
theorem claim_C1_counterexample :
    ¬ sameOutcome (score_assessment [("D3_IOT_WITH_FINANCE", "YES")])
        (score_assessment [("D3_IOT_WITH_FINANCE", "NOT_SURE")]) := by
  intro h
  exact absurd h.1 (by decide)

/-- C1, amended: the worst-case / NOT_SURE / absence equivalence holds for
the ten scored questions other than `C2_REMOTE_ACCESS_METHOD` and
`D3_IOT_WITH_FINANCE`; for those two the triggering option
(`PORT_FORWARDING` resp. `YES`) is not applied on unknown, but `NOT_SURE`
and absence are still equivalent to each other. -/
theorem claim_C1_amended :
    unknownEquiv "C1_WAN_ADMIN_EXPOSURE" "YES" ∧
    unknownEquiv "C3_ADMIN_MFA" "NO" ∧
    unknownEquiv "D1_GUEST_INTERNAL_ACCESS" "YES" ∧
    unknownEquiv "D2_VLAN_SEPARATION" "FLAT" ∧
    unknownEquiv "E1_CORP_WIFI_SECURITY" "OPEN_OR_UNKNOWN" ∧
    unknownEquiv "E2_GUEST_CLIENT_ISOLATION" "NO" ∧
    unknownEquiv "F1_UNUSED_PORTS_RESTRICTED" "NO" ∧
    unknownEquiv "F2_CONFIG_BACKUPS" "NONE" ∧
    unknownEquiv "F3_LOGGING_EXISTS" "NO" ∧
    unknownEquiv "F4_FIRMWARE_UPDATES" "RARE" ∧
    nsAbsentEquiv "C2_REMOTE_ACCESS_METHOD" ∧
    nsAbsentEquiv "D3_IOT_WITH_FINANCE" := by
  refine ⟨⟨fun a => ⟨rfl, rfl, rfl⟩, fun a h => ?_⟩,
          ⟨fun a => ⟨rfl, rfl, rfl⟩, fun a h => ?_⟩,
          ⟨fun a => ⟨rfl, rfl, rfl⟩, fun a h => ?_⟩,
          ⟨fun a => ⟨rfl, rfl, rfl⟩, fun a h => ?_⟩,
          ⟨fun a => ⟨rfl, rfl, rfl⟩, fun a h => ?_⟩,
          ⟨fun a => ⟨rfl, rfl, rfl⟩, fun a h => ?_⟩,
          ⟨fun a => ⟨rfl, rfl, rfl⟩, fun a h => ?_⟩,
          ⟨fun a => ⟨rfl, rfl, rfl⟩, fun a h => ?_⟩,
          ⟨fun a => ⟨rfl, rfl, rfl⟩, fun a h => ?_⟩,
          ⟨fun a => ⟨rfl, rfl, rfl⟩, fun a h => ?_⟩,
          fun a h => ?_, fun a h => ?_⟩ <;>
    exact ⟨by simp only [score_assessment, h]; rfl,
           by simp only [score_assessment, h]; rfl,
           by simp only [score_assessment, h]; rfl⟩

/-- Witness for C1 (amended): instantiating the `D2_VLAN_SEPARATION`
conjunct at the empty answer set. -/
theorem claim_C1_amended_witness :
    get ([] : Answers) "D2_VLAN_SEPARATION" = none ∧
    sameOutcome (score_assessment (set [] "D2_VLAN_SEPARATION" "FLAT"))
      (score_assessment []) :=
  ⟨rfl, claim_C1_amended.2.2.2.1.2 [] rfl⟩

/-- Membership of the default-multiplier note when the bucket is unknown. -/
theorem deviceNote_mem_notes_of (missing : List String) :
    deviceNote ∈ notes_of missing false := by
  simp [notes_of]

/-- The default-multiplier note is absent when the bucket is recognized
(the only other possible note starts with the longer missing-answers
text, so it cannot be the device note). -/
theorem deviceNote_not_mem_notes_of (missing : List String) :
    deviceNote ∉ notes_of missing true := by
  intro hmem
  simp only [notes_of] at hmem
  rcases List.mem_append.mp hmem with h | h
  · revert h
    split
    · simp
    · intro h
      simp only [List.mem_singleton] at h
      have h1 := String.length_append missingNoteHead (String.intercalate ", " missing)
      have h2 : 100 ≤ missingNoteHead.length := by decide
      have h3 : deviceNote.length ≤ 60 := by decide
      rw [h, h1] at h3
      omega
  · exact List.not_mem_nil _ h

/-- C3, counterexample: when `A1_DEVICE_COUNT` is absent the engine falls
back to the default bucket `"R_50_200"` (src/scoring.py line 120), which
IS in the table, so the multiplier is 1.1 but NO advisory note is
appended — contradicting the claim for absent device counts. -/
theorem claim_C3_counterexample :
    (score_assessment []).device_multiplier = 110 ∧
    deviceNote ∉ (score_assessment []).notes := by
  exact ⟨by decide, by decide⟩

/-- C3, amended: an absent `A1_DEVICE_COUNT` silently assumes the default
bucket (multiplier 1.1, no note); a present but unrecognized value uses
multiplier 1.1 AND appends the advisory note.  Neither raises (the
embedding is a total function). -/
theorem claim_C3_amended (a : Answers) :
    (get a "A1_DEVICE_COUNT" = none →
      (score_assessment a).device_multiplier = 110 ∧
      deviceNote ∉ (score_assessment a).notes) ∧
    (∀ v, get a "A1_DEVICE_COUNT" = some v → DEVICE_MULTIPLIER.lookup v = none →
      (score_assessment a).device_multiplier = 110 ∧
      deviceNote ∈ (score_assessment a).notes) := by
  constructor
  · intro h
    refine ⟨by simp only [score_assessment, h]; rfl, ?_⟩
    simp only [score_assessment, h]
    exact deviceNote_not_mem_notes_of _
  · intro v h hv
    refine ⟨?_, ?_⟩
    · simp only [score_assessment, h, Option.getD_some, hv, Option.getD_none]
    · simp only [score_assessment, h, Option.getD_some, hv, Option.isSome_none]
      exact deviceNote_mem_notes_of _

/-- Witness for C3 (amended): both branches at concrete inputs. -/
theorem claim_C3_amended_witness :
    ((score_assessment [("C1_WAN_ADMIN_EXPOSURE", "NO")]).device_multiplier = 110 ∧
      deviceNote ∉ (score_assessment [("C1_WAN_ADMIN_EXPOSURE", "NO")]).notes) ∧
    ((score_assessment [("A1_DEVICE_COUNT", "MANY")]).device_multiplier = 110 ∧
      deviceNote ∈ (score_assessment [("A1_DEVICE_COUNT", "MANY")]).notes) :=
  ⟨(claim_C3_amended [("C1_WAN_ADMIN_EXPOSURE", "NO")]).1 rfl,
   (claim_C3_amended [("A1_DEVICE_COUNT", "MANY")]).2 "MANY" rfl rfl⟩

/-- A benign answer set: every scored question gets a non-triggering
option, so the raw segmentation deduction is 0. -/
def benignAnswers : Answers :=
  [("C1_WAN_ADMIN_EXPOSURE", "NO"),
   ("C2_REMOTE_ACCESS_METHOD", "VPN"),
   ("C3_ADMIN_MFA", "YES"),
   ("D1_GUEST_INTERNAL_ACCESS", "NO"),
   ("D2_VLAN_SEPARATION", "FULL"),
   ("D3_IOT_WITH_FINANCE", "NO"),
   ("E1_CORP_WIFI_SECURITY", "ENTERPRISE"),
   ("E2_GUEST_CLIENT_ISOLATION", "YES"),
   ("F1_UNUSED_PORTS_RESTRICTED", "YES"),
   ("F2_CONFIG_BACKUPS", "AUTOMATED"),
   ("F3_LOGGING_EXISTS", "YES"),
   ("F4_FIRMWARE_UPDATES", "REGULAR")]

/-- C6, counterexample: on an answer set with zero raw segmentation
deduction, switching the device bucket from `LT_50` (1.0×) to
`R_500_1000` (1.5×) changes neither `segmentation_scaled` nor
`multiplied_total` (both engines scale 0), refuting "changing the device
bucket changes segmentation_scaled and multiplied_total". -/
theorem claim_C6_counterexample :
    (score_assessment (set benignAnswers "A1_DEVICE_COUNT" "LT_50")).deductions.segmentation_scaled
      = (score_assessment (set benignAnswers "A1_DEVICE_COUNT" "R_500_1000")).deductions.segmentation_scaled ∧
    (score_assessment (set benignAnswers "A1_DEVICE_COUNT" "LT_50")).deductions.multiplied_total
      = (score_assessment (set benignAnswers "A1_DEVICE_COUNT" "R_500_1000")).deductions.multiplied_total := by
  exact ⟨by decide, by decide⟩

/-- C6, amended: changing only `A1_DEVICE_COUNT` never changes the
perimeter deduction (nor the raw segmentation, wireless or hygiene
deductions, the gates, or the failed controls), and any change is
confined to the scaled segmentation term: `multiplied_total -
segmentation_scaled` is unchanged.  (`segmentation_scaled` itself CAN
change, e.g. on scenario A, but need not — see the counterexample.) -/
theorem claim_C6_amended (a : Answers) (v₁ v₂ : String) :
    (score_assessment (set a "A1_DEVICE_COUNT" v₁)).deductions.perimeter
      = (score_assessment (set a "A1_DEVICE_COUNT" v₂)).deductions.perimeter ∧
    (score_assessment (set a "A1_DEVICE_COUNT" v₁)).deductions.segmentation
      = (score_assessment (set a "A1_DEVICE_COUNT" v₂)).deductions.segmentation ∧
    (score_assessment (set a "A1_DEVICE_COUNT" v₁)).deductions.wireless
      = (score_assessment (set a "A1_DEVICE_COUNT" v₂)).deductions.wireless ∧
    (score_assessment (set a "A1_DEVICE_COUNT" v₁)).deductions.hygiene
      = (score_assessment (set a "A1_DEVICE_COUNT" v₂)).deductions.hygiene ∧
    (score_assessment (set a "A1_DEVICE_COUNT" v₁)).deductions.multiplied_total
        - (score_assessment (set a "A1_DEVICE_COUNT" v₁)).deductions.segmentation_scaled
      = (score_assessment (set a "A1_DEVICE_COUNT" v₂)).deductions.multiplied_total
        - (score_assessment (set a "A1_DEVICE_COUNT" v₂)).deductions.segmentation_scaled ∧
    (score_assessment (set a "A1_DEVICE_COUNT" v₁)).gates
      = (score_assessment (set a "A1_DEVICE_COUNT" v₂)).gates ∧
    (score_assessment (set a "A1_DEVICE_COUNT" v₁)).failed_controls
      = (score_assessment (set a "A1_DEVICE_COUNT" v₂)).failed_controls := by
  refine ⟨rfl, rfl, rfl, rfl, ?_, rfl, rfl⟩
  simp only [score_assessment]
  exact (by intros; omega : ∀ x y z w : ℤ, x + y + z - x = w + y + z - w) _ _ _ _

/-- On scenario A (raw segmentation 35) the bucket change 1.0× → 1.5×
does change the scaled segmentation (35 vs 52), complementing C6. -/
theorem scenarioA_bucket_changes_scaled :
    (score_assessment (set scenarioA "A1_DEVICE_COUNT" "LT_50")).deductions.segmentation_scaled
      ≠ (score_assessment (set scenarioA "A1_DEVICE_COUNT" "R_500_1000")).deductions.segmentation_scaled := by
  decide

/-- C9: each of the five gates has `failed = true` exactly when its reasons
list is non-empty (the code sets `failed = len(reasons) > 0`). -/
theorem claim_C9 (a : Answers) :
    ∀ g ∈ (score_assessment a).gates, g.failed = true ↔ g.reasons ≠ [] := by
  intro g hg
  simp only [score_assessment, gatesOf, List.mem_cons, List.not_mem_nil, or_false] at hg
  rcases hg with h | h | h | h | h <;> (subst h; exact length_bne_iff _)

/-- Witness for C9: the G1 gate of the empty answer set. -/
theorem claim_C9_witness :
    (⟨"G1", true, 40, ["Admin interface reachable from internet (or unknown)."]⟩ : GateResult)
      ∈ (score_assessment []).gates ∧
    ((⟨"G1", true, 40, ["Admin interface reachable from internet (or unknown)."]⟩ : GateResult).failed = true ↔
      (⟨"G1", true, 40, ["Admin interface reachable from internet (or unknown)."]⟩ : GateResult).reasons ≠ []) :=
  ⟨by decide, claim_C9 [] _ (by decide)⟩

/-! ### Resolver lemmas -/

/-- `List.contains` agrees with membership (String has a lawful `BEq`). -/
theorem contains_iff (l : List String) (c : String) : l.contains c = true ↔ c ∈ l := by
  simp [List.contains, List.elem_iff]

/-- Elements of the deduplicated list come from the input. -/
theorem dedup_go_subset : ∀ (l : List String) (seen : List String) (c : String),
    c ∈ dedup_go seen l → c ∈ l := by
  intro l
  induction l with
  | nil => intro seen c h; simp [dedup_go] at h
  | cons x rest ih =>
    intro seen c h
    simp only [dedup_go] at h
    revert h
    split
    · intro h; exact List.mem_cons_of_mem _ (ih seen c h)
    · intro h
      rcases List.mem_cons.mp h with h | h
      · exact h ▸ List.mem_cons_self _ _
      · exact List.mem_cons_of_mem _ (ih (x :: seen) c h)

/-- The deduplicated list is duplicate-free and avoids the seen-set. -/
theorem dedup_go_nodup : ∀ (l : List String) (seen : List String),
    (dedup_go seen l).Nodup ∧ ∀ c ∈ dedup_go seen l, seen.contains c = false := by
  intro l
  induction l with
  | nil => intro seen; simp [dedup_go]
  | cons x rest ih =>
    intro seen
    simp only [dedup_go]
    split
    · exact ih seen
    · rename_i hx
      rcases ih (x :: seen) with ⟨hnd, hfresh⟩
      have hxf : x ∉ dedup_go (x :: seen) rest := by
        intro hmem
        have := hfresh x hmem
        simp [List.contains_cons] at this
      refine ⟨List.nodup_cons.mpr ⟨hxf, hnd⟩, ?_⟩
      intro c hc
      rcases List.mem_cons.mp hc with h | h
      · subst h; simpa using hx
      · have := hfresh c h
        simp only [List.contains_cons, Bool.or_eq_false_iff] at this
        exact this.2

/-- Deduplication is idempotent. -/
theorem dedup_go_idem : ∀ (l : List String) (seen : List String),
    dedup_go seen (dedup_go seen l) = dedup_go seen l := by
  intro l
  induction l with
  | nil => intro seen; simp [dedup_go]
  | cons x rest ih =>
    intro seen
    simp only [dedup_go]
    split
    · exact ih seen
    · rename_i hx
      simp only [dedup_go]
      rw [if_neg hx]
      exact congrArg (x :: ·) (ih (x :: seen))

/-- The collection loop is `filterMap` of the library lookup over the
deduplicated input. -/
theorem collect_blocks_eq : ∀ (l : List String) (seen : List String),
    collect_blocks seen l
      = (dedup_go seen l).filterMap (fun c => CONTROL_FIX_LIBRARY.lookup c) := by
  intro l
  induction l with
  | nil => intro seen; simp [collect_blocks, dedup_go]
  | cons x rest ih =>
    intro seen
    simp only [collect_blocks, dedup_go]
    split
    · exact ih seen
    · simp only [List.filterMap_cons]
      cases h : CONTROL_FIX_LIBRARY.lookup x <;> simp [h, ih (x :: seen)]

/-- Deduplication commutes with filtering by a predicate, provided the two
seen-sets agree on elements satisfying the predicate. -/
theorem dedup_go_filter (p : String → Bool) :
    ∀ (l : List String) (seen₁ seen₂ : List String),
    (∀ c, p c = true → seen₁.contains c = seen₂.contains c) →
    dedup_go seen₁ (l.filter p) = (dedup_go seen₂ l).filter p := by
  intro l
  induction l with
  | nil => intro seen₁ seen₂ _; simp [dedup_go]
  | cons x rest ih =>
    intro seen₁ seen₂ hseen
    by_cases hp : p x = true
    · rw [List.filter_cons_of_pos hp]
      show (if seen₁.contains x = true then dedup_go seen₁ (rest.filter p)
            else x :: dedup_go (x :: seen₁) (rest.filter p))
          = (if seen₂.contains x = true then dedup_go seen₂ rest
              else x :: dedup_go (x :: seen₂) rest).filter p
      rw [hseen x hp]
      by_cases hx : seen₂.contains x = true
      · rw [if_pos hx, if_pos hx]
        exact ih seen₁ seen₂ hseen
      · rw [if_neg hx, if_neg hx, List.filter_cons_of_pos hp]
        refine congrArg (x :: ·) (ih (x :: seen₁) (x :: seen₂) ?_)
        intro c hc
        rw [List.contains_cons, List.contains_cons, hseen c hc]
    · have hp' : p x = false := by
        cases h : p x
        · rfl
        · exact absurd h hp
      rw [List.filter_cons_of_neg hp]
      show dedup_go seen₁ (rest.filter p)
          = (if seen₂.contains x = true then dedup_go seen₂ rest
              else x :: dedup_go (x :: seen₂) rest).filter p
      by_cases hx : seen₂.contains x = true
      · rw [if_pos hx]
        exact ih seen₁ seen₂ hseen
      · rw [if_neg hx, List.filter_cons_of_neg hp]
        refine ih seen₁ (x :: seen₂) ?_
        intro c hc
        have hcx : (c == x) = false := by
          cases hcx : c == x
          · rfl
          · exact absurd (beq_iff_eq.mp hcx ▸ hc) (by simp [hp'])
        rw [List.contains_cons, hcx, Bool.false_or]
        exact hseen c hc

/-- `filterMap f` ignores elements on which `f` returns `none`. -/
theorem filterMap_filter_isSome {α β : Type} (f : α → Option β) :
    ∀ l : List α, (l.filter (fun c => (f c).isSome)).filterMap f = l.filterMap f := by
  intro l
  induction l with
  | nil => simp
  | cons x rest ih =>
    cases h : f x <;>
      simp [List.filter_cons, List.filterMap_cons, h, ih]

/-- `filterMap f` keeps every element on which `f` is `some`. -/
theorem length_filterMap_of_isSome {α β : Type} (f : α → Option β) :
    ∀ l : List α, (∀ c ∈ l, (f c).isSome = true) →
      (l.filterMap f).length = l.length := by
  intro l
  induction l with
  | nil => simp
  | cons x rest ih =>
    intro h
    cases hx : f x with
    | none => exact absurd (hx ▸ h x (List.mem_cons_self _ _)) (by simp)
    | some b =>
      simp only [List.filterMap_cons, hx, List.length_cons]
      exact congrArg (· + 1) (ih (fun c hc => h c (List.mem_cons_of_mem _ hc)))

/-- Every library entry's `control_id` field equals its key. -/
theorem library_keys : ∀ p ∈ CONTROL_FIX_LIBRARY, p.2.control_id = p.1 := by decide

/-- A successful lookup in a key-consistent association list returns a
block whose `control_id` is the looked-up key. -/
theorem lookup_control_id :
    ∀ (entries : List (String × FixBlock)), (∀ p ∈ entries, p.2.control_id = p.1) →
    ∀ (cid : String) (b : FixBlock), entries.lookup cid = some b → b.control_id = cid := by
  intro entries
  induction entries with
  | nil => intro _ cid b h; simp [List.lookup] at h
  | cons e rest ih =>
    intro hk cid b h
    rw [List.lookup_cons] at h
    revert h
    split
    · rename_i heq
      intro h
      cases h
      exact (hk e (List.mem_cons_self _ _)).trans (beq_iff_eq.mp heq).symm
    · intro h
      exact ih (fun p hp => hk p (List.mem_cons_of_mem _ hp)) cid b h

/-- The control ids of the collected blocks are the recognized inputs. -/
theorem map_controlid_filterMap :
    ∀ l : List String,
      (l.filterMap (fun c => CONTROL_FIX_LIBRARY.lookup c)).map FixBlock.control_id
        = l.filter (fun c => (CONTROL_FIX_LIBRARY.lookup c).isSome) := by
  intro l
  induction l with
  | nil => simp
  | cons x rest ih =>
    cases h : CONTROL_FIX_LIBRARY.lookup x with
    | none => simp [List.filterMap_cons, List.filter_cons, h, ih]
    | some b =>
      simp [List.filterMap_cons, List.filter_cons, h, ih,
        lookup_control_id CONTROL_FIX_LIBRARY library_keys x b h]

/-- Boolean disjunction as a disjunction of equations. -/
theorem bor_iff (a b : Bool) : (a || b) = true ↔ a = true ∨ b = true := by
  cases a <;> cases b <;> simp

/-- The character-list order is total. -/
theorem charListLE_total : ∀ as bs : List Char,
    (charListLE as bs || charListLE bs as) = true := by
  intro as
  induction as with
  | nil => intro bs; simp [charListLE]
  | cons a as ih =>
    intro bs
    cases bs with
    | nil => simp [charListLE]
    | cons b bs =>
      simp only [charListLE, Bool.or_eq_true, Bool.and_eq_true, decide_eq_true_eq,
        beq_iff_eq]
      rcases Nat.lt_trichotomy a.toNat b.toNat with h | h | h
      · exact Or.inl (Or.inl h)
      · rcases (bor_iff _ _).mp (ih bs) with h3 | h3
        · exact Or.inl (Or.inr ⟨h, h3⟩)
        · exact Or.inr (Or.inr ⟨h.symm, h3⟩)
      · exact Or.inr (Or.inl h)

/-- The character-list order is transitive. -/
theorem charListLE_trans : ∀ as bs cs : List Char,
    charListLE as bs = true → charListLE bs cs = true → charListLE as cs = true := by
  intro as
  induction as with
  | nil => intro bs cs _ _; simp [charListLE]
  | cons a as ih =>
    intro bs cs h1 h2
    cases bs with
    | nil => simp [charListLE] at h1
    | cons b bs =>
      cases cs with
      | nil => simp [charListLE] at h2
      | cons c cs =>
        simp only [charListLE, Bool.or_eq_true, Bool.and_eq_true, decide_eq_true_eq,
          beq_iff_eq] at h1 h2 ⊢
        rcases h1 with h1 | ⟨h1e, h1r⟩ <;> rcases h2 with h2 | ⟨h2e, h2r⟩
        · exact Or.inl (by omega)
        · exact Or.inl (by omega)
        · exact Or.inl (by omega)
        · exact Or.inr ⟨by omega, ih bs cs h1r h2r⟩

/-- The tuple key order is total. -/
theorem keyLE_total (x y : ℕ × ℕ × String) : (keyLE x y || keyLE y x) = true := by
  simp only [keyLE, strLE, Bool.or_eq_true, Bool.and_eq_true, decide_eq_true_eq,
    beq_iff_eq]
  rcases Nat.lt_trichotomy x.1 y.1 with h1 | h1 | h1
  · exact Or.inl (Or.inl h1)
  · rcases Nat.lt_trichotomy x.2.1 y.2.1 with h2 | h2 | h2
    · exact Or.inl (Or.inr ⟨h1, Or.inl h2⟩)
    · rcases (bor_iff _ _).mp (charListLE_total x.2.2.data y.2.2.data) with h3 | h3
      · exact Or.inl (Or.inr ⟨h1, Or.inr ⟨h2, h3⟩⟩)
      · exact Or.inr (Or.inr ⟨h1.symm, Or.inr ⟨h2.symm, h3⟩⟩)
    · exact Or.inr (Or.inr ⟨h1.symm, Or.inl h2⟩)
  · exact Or.inr (Or.inl h1)

/-- The tuple key order is transitive. -/
theorem keyLE_trans (x y z : ℕ × ℕ × String) :
    keyLE x y = true → keyLE y z = true → keyLE x z = true := by
  simp only [keyLE, strLE, Bool.or_eq_true, Bool.and_eq_true, decide_eq_true_eq,
    beq_iff_eq]
  rintro (h1 | ⟨h1e, h1r⟩) (h2 | ⟨h2e, h2r⟩)
  · exact Or.inl (by omega)
  · exact Or.inl (by omega)
  · exact Or.inl (by omega)
  · refine Or.inr ⟨by omega, ?_⟩
    rcases h1r with h1r | ⟨h1re, h1rs⟩ <;> rcases h2r with h2r | ⟨h2re, h2rs⟩
    · exact Or.inl (by omega)
    · exact Or.inl (by omega)
    · exact Or.inl (by omega)
    · exact Or.inr ⟨by omega, charListLE_trans _ _ _ h1rs h2rs⟩

/-- The block comparison is transitive. -/
theorem block_le_trans (a b c : FixBlock) :
    block_le a b = true → block_le b c = true → block_le a c = true :=
  keyLE_trans _ _ _

/-- The block comparison is total. -/
theorem block_le_total (a b : FixBlock) : (block_le a b || block_le b a) = true :=
  keyLE_total _ _

/-- A block is critical/high exactly when its severity rank is below 2. -/
theorem isCritHigh_iff (b : FixBlock) :
    isCritHigh b = true ↔ severity_rank b.severity < 2 := by
  rcases b with ⟨sev, _, _, _, _, _, _, _⟩
  simp only [isCritHigh, severity_rank, List.lookup, Bool.or_eq_true, beq_iff_eq]
  by_cases h1 : sev = "critical"
  · subst h1; simp
  · by_cases h2 : sev = "high"
    · subst h2; simp
    · by_cases h3 : sev = "medium"
      · subst h3; simp
      · have e1 : (sev == "critical") = false := beq_eq_false_iff_ne.mpr h1
        have e2 : (sev == "high") = false := beq_eq_false_iff_ne.mpr h2
        have e3 : (sev == "medium") = false := beq_eq_false_iff_ne.mpr h3
        simp [e1, e2, e3, h1, h2]

/-- The comparison only ever moves to weakly larger severity ranks. -/
theorem block_le_sev (a b : FixBlock) :
    block_le a b = true → severity_rank a.severity ≤ severity_rank b.severity := by
  simp only [block_le, keyLE, sort_key, Bool.or_eq_true, Bool.and_eq_true,
    decide_eq_true_eq, beq_iff_eq]
  rintro (h | ⟨h, -⟩) <;> omega

/-- Splitting a list sorted by `r` with a predicate that is
upward-closed along `r` reassembles the list. -/
theorem filter_append_filter_not {α : Type} (p : α → Bool) (r : α → α → Prop)
    (hpr : ∀ a b, r a b → p b = true → p a = true) :
    ∀ l : List α, l.Pairwise r → l.filter p ++ l.filter (fun x => !p x) = l := by
  intro l
  induction l with
  | nil => intro _; simp
  | cons x xs ih =>
    intro hpw
    rcases List.pairwise_cons.mp hpw with ⟨hx, hxs⟩
    cases hp : p x with
    | true =>
      rw [List.filter_cons_of_pos hp, List.filter_cons_of_neg (by simp [hp]),
        List.cons_append]
      exact congrArg (x :: ·) (ih hxs)
    | false =>
      have hnone : ∀ b ∈ xs, p b = false := by
        intro b hb
        cases hpb : p b
        · rfl
        · exact absurd (hpr x b (hx b hb) hpb) (by simp [hp])
      rw [List.filter_cons_of_neg (by simp [hp]), List.filter_cons_of_pos (by simp [hp]),
        List.filter_eq_nil_iff.mpr (fun b hb => by simp [hnone b hb]),
        List.filter_eq_self.mpr (fun b hb => by simp [hnone b hb]), List.nil_append]

/-- C7: the resolver never emits duplicate Fix Blocks (control ids are
distinct), its output is the severity/gate/id-sorted block list split into
the two severity buckets, and any two failed-control inputs with the same
first-occurrence deduplication produce identical output. -/
theorem claim_C7 (fc : List String) (gs : List GateResult) :
    (generate_fix_blocks fc gs).critical_fixes
        ++ (generate_fix_blocks fc gs).recommended_fixes = blocks_sorted_of fc ∧
    ((blocks_sorted_of fc).map FixBlock.control_id).Nodup ∧
    List.Pairwise (fun x y => block_le x y = true) (blocks_sorted_of fc) ∧
    ∀ fc', dedup_go [] fc' = dedup_go [] fc →
      generate_fix_blocks fc' gs = generate_fix_blocks fc gs := by
  have hsorted : List.Pairwise (fun x y => block_le x y = true) (blocks_sorted_of fc) :=
    List.sorted_mergeSort block_le_trans block_le_total _
  refine ⟨?_, ?_, hsorted, ?_⟩
  · exact filter_append_filter_not isCritHigh _
      (fun x y hr hb => (isCritHigh_iff x).mpr
        (Nat.lt_of_le_of_lt (block_le_sev x y hr) ((isCritHigh_iff y).mp hb)))
      _ hsorted
  · have hperm : (blocks_sorted_of fc).Perm (collect_blocks [] fc) :=
      List.mergeSort_perm _ _
    have hnd : ((collect_blocks [] fc).map FixBlock.control_id).Nodup := by
      rw [collect_blocks_eq, map_controlid_filterMap]
      exact List.Nodup.filter _ (dedup_go_nodup fc []).1
    exact ((hperm.map FixBlock.control_id).nodup_iff).mpr hnd
  · intro fc' h
    have hb : collect_blocks [] fc' = collect_blocks [] fc := by
      rw [collect_blocks_eq, collect_blocks_eq, h]
    simp only [generate_fix_blocks, blocks_sorted_of, hb]

/-- Witness for C7: a duplicated input list resolves identically to its
deduplication. -/
theorem claim_C7_witness :
    dedup_go [] ["CTRL_IDENTITY_ADMIN_MFA", "CTRL_IDENTITY_ADMIN_MFA"]
      = dedup_go [] ["CTRL_IDENTITY_ADMIN_MFA"] ∧
    generate_fix_blocks ["CTRL_IDENTITY_ADMIN_MFA", "CTRL_IDENTITY_ADMIN_MFA"] []
      = generate_fix_blocks ["CTRL_IDENTITY_ADMIN_MFA"] [] :=
  ⟨rfl, (claim_C7 ["CTRL_IDENTITY_ADMIN_MFA"] []).2.2.2 _ rfl⟩

/-- C8: control identifiers without a library entry are silently dropped —
the output equals the output on the recognized sublist (and the embedding
is a total function, so no error is possible). -/
theorem claim_C8 (fc : List String) (gs : List GateResult) :
    generate_fix_blocks fc gs
      = generate_fix_blocks
          (fc.filter (fun c => (CONTROL_FIX_LIBRARY.lookup c).isSome)) gs := by
  have hb : collect_blocks []
        (fc.filter (fun c => (CONTROL_FIX_LIBRARY.lookup c).isSome))
      = collect_blocks [] fc := by
    rw [collect_blocks_eq, collect_blocks_eq,
      dedup_go_filter _ fc [] [] (fun c _ => rfl), filterMap_filter_isSome]
  simp only [generate_fix_blocks, blocks_sorted_of, hb]

/-- Membership in a conditional singleton forces the element. -/
theorem mem_ite_singleton {c x : String} {b : Bool}
    (h : c ∈ (if b then [x] else [])) : c = x := by
  revert h; split <;> simp

/-- Membership in a two-way conditional singleton chain. -/
theorem mem_ite_pair {c x y : String} {b₁ b₂ : Bool}
    (h : c ∈ (if b₁ then [x] else if b₂ then [y] else [])) : c = x ∨ c = y := by
  revert h
  split
  · intro h; exact Or.inl (List.mem_singleton.mp h)
  · split
    · intro h; exact Or.inr (List.mem_singleton.mp h)
    · intro h; exact absurd h (List.not_mem_nil c)

/-- Every identifier the engine can emit has a fix-block library entry. -/
theorem mem_failed_controls_raw (c1 c2 c3 d1 d2 d3 e1 e2 f1 f2 f3 f4 : Option String) :
    ∀ cid ∈ failed_controls_raw c1 c2 c3 d1 d2 d3 e1 e2 f1 f2 f3 f4,
      (CONTROL_FIX_LIBRARY.lookup cid).isSome = true := by
  intro cid h
  simp only [failed_controls_raw, List.mem_append] at h
  rcases h with ((((((((((h | h) | h) | h) | h) | h) | h) | h) | h) | h) | h) | h
  · have e := mem_ite_singleton h; subst e; decide
  · have e := mem_ite_singleton h; subst e; decide
  · have e := mem_ite_singleton h; subst e; decide
  · rcases mem_ite_pair h with e | e <;> (subst e; decide)
  · have e := mem_ite_singleton h; subst e; decide
  · have e := mem_ite_singleton h; subst e; decide
  · rcases mem_ite_pair h with e | e <;> (subst e; decide)
  · have e := mem_ite_singleton h; subst e; decide
  · have e := mem_ite_singleton h; subst e; decide
  · have e := mem_ite_singleton h; subst e; decide
  · have e := mem_ite_singleton h; subst e; decide
  · have e := mem_ite_singleton h; subst e; decide

/-- C10: every control identifier the engine emits is a key of the Fix
Block library, so feeding engine output to the resolver never takes the
drop-unrecognized branch: the resolver emits exactly one Fix Block per
failed control. -/
theorem claim_C10 (a : Answers) :
    (∀ cid ∈ (score_assessment a).failed_controls,
      (CONTROL_FIX_LIBRARY.lookup cid).isSome = true) ∧
    ((generate_fix_blocks (score_assessment a).failed_controls
          (score_assessment a).gates).critical_fixes
        ++ (generate_fix_blocks (score_assessment a).failed_controls
          (score_assessment a).gates).recommended_fixes).length
      = (score_assessment a).failed_controls.length := by
  have hrec : ∀ cid ∈ (score_assessment a).failed_controls,
      (CONTROL_FIX_LIBRARY.lookup cid).isSome = true := by
    intro cid h
    simp only [score_assessment] at h
    exact mem_failed_controls_raw _ _ _ _ _ _ _ _ _ _ _ _ cid (dedup_go_subset _ _ _ h)
  refine ⟨hrec, ?_⟩
  have hsorted : List.Pairwise (fun x y => block_le x y = true)
      (blocks_sorted_of (score_assessment a).failed_controls) :=
    List.sorted_mergeSort block_le_trans block_le_total _
  have hpart := filter_append_filter_not isCritHigh _
    (fun x y hr hb => (isCritHigh_iff x).mpr
      (Nat.lt_of_le_of_lt (block_le_sev x y hr) ((isCritHigh_iff y).mp hb)))
    _ hsorted
  have hFdedup : dedup_go [] (score_assessment a).failed_controls
      = (score_assessment a).failed_controls := by
    simp only [score_assessment]
    exact dedup_go_idem _ _
  simp only [generate_fix_blocks]
  rw [hpart, blocks_sorted_of, (List.mergeSort_perm _ _).length_eq,
    collect_blocks_eq, hFdedup]
  exact length_filterMap_of_isSome _ _ hrec

/-- Witness for C10: the WAN-admin control emitted on the empty answer set
is recognized by the library. -/
theorem claim_C10_witness :
    "CTRL_PERIMETER_WAN_ADMIN_EXPOSURE" ∈ (score_assessment []).failed_controls ∧
    (CONTROL_FIX_LIBRARY.lookup "CTRL_PERIMETER_WAN_ADMIN_EXPOSURE").isSome = true :=
  ⟨by decide, (claim_C10 []).1 _ (by decide)⟩

end Ironclad
